import Mathlib

/-!
Shallow embedding of the wireguard-doctor diagnostic engine
(src/diagnostics.py, src/wg_doctor.py, src/config_parser.py).

External subprocess invocations are modelled by an `ExecResult` value
describing how the call ended (normal output, timeout, non-zero exit,
missing executable); the pure decision logic that consumes those results
is translated function by function from the Python source.  Python string
primitives (`str.strip`, `str.split(sep)`, `int(...)`) are embedded as
executable functions on `List Char`.
-/

/-- Whitespace characters removed by Python `str.strip()` (ASCII subset). -/
def isPySpace (c : Char) : Bool :=
  c = ' ' || c = '\t' || c = '\n' || c = '\r' || c = '\x0b' || c = '\x0c'

/-- Python `s.strip()` on the character list of `s`. -/
def pyStripChars (cs : List Char) : List Char :=
  ((cs.dropWhile isPySpace).reverse.dropWhile isPySpace).reverse

/-- Python `s.split(sep)` for a one-character separator: non-collapsing split,
`"".split(sep) = [""]`. -/
def splitOnChar (sep : Char) : List Char → List (List Char)
  | [] => [[]]
  | c :: rest =>
    if c = sep then [] :: splitOnChar sep rest
    else
      match splitOnChar sep rest with
      | g :: gs => (c :: g) :: gs
      | [] => [[c]]

/-- Digit-run acceptor for Python `int(...)`: digits, with single
underscores allowed between digits.  `prevUnderscore` tracks that the
previous character was an underscore (which must be followed by a digit);
`seen` tracks that at least one digit has been read. -/
def pyDigitsGo (seen prevUnderscore : Bool) (acc : Nat) : List Char → Option Nat
  | [] => if seen && !prevUnderscore then some acc else none
  | c :: rest =>
    if c.isDigit then pyDigitsGo true false (acc * 10 + (c.toNat - 48)) rest
    else if c = '_' then
      if seen && !prevUnderscore then pyDigitsGo true true acc rest else none
    else none

/-- Python `int(s)` on a character list: optional surrounding whitespace,
optional sign, then an ASCII digit run (underscores between digits
allowed); `none` models a raised `ValueError`. -/
def pyInt? (cs : List Char) : Option Int :=
  match pyStripChars cs with
  | '+' :: rest => (pyDigitsGo false false 0 rest).map Int.ofNat
  | '-' :: rest => (pyDigitsGo false false 0 rest).map (fun n => -(n : Int))
  | rest => (pyDigitsGo false false 0 rest).map Int.ofNat

/-- Does `s` start with `pat` (character lists)? -/
def startsWithChars : List Char → List Char → Bool
  | [], _ => true
  | _ :: _, [] => false
  | p :: ps, c :: cs => p = c && startsWithChars ps cs

/-- Does `s` contain `pat` as a contiguous substring (character lists)?
Models Python `pat in s`. -/
def containsSubChars (pat : List Char) : List Char → Bool
  | [] => startsWithChars pat []
  | c :: rest => startsWithChars pat (c :: rest) || containsSubChars pat rest

/-- Python `pat in s` on strings. -/
def containsSubstr (pat s : String) : Bool :=
  containsSubChars pat.data s.data

/-- How an external command invocation ended, as seen by the caller: captured stdout, `subprocess.TimeoutExpired`,
`subprocess.CalledProcessError`, or `FileNotFoundError`. -/
inductive ExecResult where
  | ok (stdout : String)
  | timeout
  | calledProcessError
  | fileNotFound
deriving DecidableEq, Repr

example : pyStripChars "  ab\n".data = ['a', 'b'] := by decide
example : splitOnChar '\t' "k1\t100\nk2\t200".data =
    ["k1".data, "100\nk2".data, "200".data] := by decide
example : pyInt? "100".data = some 100 := by decide
example : pyInt? " -42 ".data = some (-42) := by decide
example : pyInt? "1_0".data = some 10 := by decide
example : pyInt? "1_".data = none := by decide
example : pyInt? "".data = none := by decide
example : containsSubstr "bad state" "a very bad state." = true := by decide
example : containsSubstr "bad state" "all good" = false := by decide

/-- Result of `diagnostics.check_endpoint_connectivity` (the reachability
probe): the returned bool paired with the message passed to
`ui.end_task`. -/
def check_endpoint_connectivity (endpoint_ip : String) (r : ExecResult) :
    Bool × String :=
  match r with
  | .ok _ => (true, "Endpoint " ++ endpoint_ip ++ " is reachable.")
  | .timeout =>
    (false, "Ping timed out. The server at " ++ endpoint_ip ++ " is unresponsive.")
  | .calledProcessError =>
    (false, "Endpoint " ++ endpoint_ip ++ " is not reachable via ping.")
  | .fileNotFound => (false, "`ping` command not found.")

/-- One record line of `wg show all dump` matched against the peer key
inside the loop of `diagnostics.find_interface_for_peer`: a peer line has
more than 4 tab-separated fields and carries the public key in field 1. -/
def find_peer_line (server_public_key : String) :
    List (List Char) → Option (List Char)
  | [] => none
  | line :: rest =>
    let fields := splitOnChar '\t' line
    if 4 < fields.length && fields.getD 1 [] = server_public_key.data then
      some (fields.getD 0 [])
    else find_peer_line server_public_key rest

/-- Embedding of `diagnostics.find_interface_for_peer`: scans the stripped stdout of
`wg show all dump` line by line; returns the found interface name (or
`none`) paired with the message passed to `ui.end_task`. -/
def find_interface_for_peer (server_public_key : String) (r : ExecResult) :
    Option String × String :=
  match r with
  | .ok stdout =>
    match find_peer_line server_public_key
        (splitOnChar '\n' (pyStripChars stdout.data)) with
    | some name =>
      (some (String.mk name),
       "Found matching peer on interface \x27" ++ String.mk name ++ "\x27.")
    | none =>
      (none, "Could not find an active interface for the given peer public key.")
  | .timeout =>
    (none, "`wg show` command timed out. The interface may be in a bad state.")
  | .calledProcessError =>
    (none, "Failed to execute `wg show all dump`. WireGuard may not be active.")
  | .fileNotFound =>
    (none, "Failed to execute `wg show all dump`. WireGuard may not be active.")

/-- Embedding of `diagnostics.check_handshake`: strips the stdout of
`wg show <interface> latest-handshakes`, unpacks it into exactly two
tab-separated fields, parses the timestamp with `int(...)`, and compares
against the current wall-clock time with the 180-second freshness
threshold.  A failed unpack or parse raises `ValueError`, caught together
with `FileNotFoundError` as "Failed to parse handshake data.".  Returns
the `(bool, message)` pair of the source; total, so no exception can
escape to the caller. -/
def check_handshake (interface : String) (r : ExecResult) (current_time : Int) :
    Bool × String :=
  match r with
  | .ok stdout =>
    let handshake_data := pyStripChars stdout.data
    if handshake_data.isEmpty then
      (false, "No handshake found for any peer on this interface.")
    else
      match splitOnChar '\t' handshake_data with
      | [_, handshake_timestamp_str] =>
        match pyInt? handshake_timestamp_str with
        | some handshake_timestamp =>
          if current_time - handshake_timestamp < 180 then
            (true, "Recent handshake found! (" ++
              toString (current_time - handshake_timestamp) ++ " seconds ago)")
          else
            (false, "Stale handshake found. (Last handshake was " ++
              toString (Int.fdiv (current_time - handshake_timestamp) 60) ++
              " minutes ago)")
        | none => (false, "Failed to parse handshake data.")
      | _ => (false, "Failed to parse handshake data.")
  | .timeout =>
    (false, "`wg show` command timed out while checking for handshake. The interface \x27" ++
      interface ++ "\x27 may be in a bad state.")
  | .calledProcessError =>
    (false, "Could not get handshake status. Is interface \x27" ++ interface ++
      "\x27 up?")
  | .fileNotFound => (false, "Failed to parse handshake data.")

/-- The spec data model `HandshakeVerdict`: `Fresh(secondsAgo)`, `Stale(minutesAgo)`,
`Absent`, `Unavailable(reason)`. -/
inductive Verdict where
  | fresh (secondsAgo : Int)
  | stale (minutesAgo : Int)
  | absent
  | unavailable (reason : String)
deriving DecidableEq, Repr

/-- The verdict reached by `check_handshake`, branch for branch: empty
stripped output is `Absent`; a two-field record with an integer timestamp
is `Fresh`/`Stale` by the 180-second rule; everything else (malformed
output, timeout, command failure) is `Unavailable`. -/
def handshakeVerdict (r : ExecResult) (current_time : Int) : Verdict :=
  match r with
  | .ok stdout =>
    let handshake_data := pyStripChars stdout.data
    if handshake_data.isEmpty then .absent
    else
      match splitOnChar '\t' handshake_data with
      | [_, handshake_timestamp_str] =>
        match pyInt? handshake_timestamp_str with
        | some handshake_timestamp =>
          if current_time - handshake_timestamp < 180 then
            .fresh (current_time - handshake_timestamp)
          else
            .stale (Int.fdiv (current_time - handshake_timestamp) 60)
        | none => .unavailable "Failed to parse handshake data."
      | _ => .unavailable "Failed to parse handshake data."
  | .timeout => .unavailable "wg show timed out"
  | .calledProcessError => .unavailable "wg show failed"
  | .fileNotFound => .unavailable "Failed to parse handshake data."

/-- The spec data model `Classification`: the single top-level branch decision. -/
inductive Classification where
  | hasHandshake
  | noHandshake
deriving DecidableEq, Repr

/-- Classification rule: `Fresh → HasHandshake`; everything else → `NoHandshake` (spec §3). -/
def classify : Verdict → Classification
  | .fresh _ => .hasHandshake
  | _ => .noHandshake

example : check_handshake "wg0" (.ok "abc\t420") 600 =
    (false, "Stale handshake found. (Last handshake was 3 minutes ago)") := by
  decide
example : check_handshake "wg0" (.ok "abc\t421") 600 =
    (true, "Recent handshake found! (179 seconds ago)") := by decide
example : check_handshake "wg0" (.ok "k1\t100\nk2\t200") 160 =
    (false, "Failed to parse handshake data.") := by decide
example : check_handshake "wg0" (.ok "k1\t100") 160 =
    (true, "Recent handshake found! (60 seconds ago)") := by decide
example : check_handshake "wg0" (.ok "  ") 160 =
    (false, "No handshake found for any peer on this interface.") := by decide
example : find_interface_for_peer "PK" (.ok "wg0\tPK\ta\tb\tc") =
    (some "wg0", "Found matching peer on interface \x27wg0\x27.") := by decide

/-- The dictionary returned by `config_parser.parse_config` (one field per
key of `parsed_data`).  `DNS`, `Address` and `PersistentKeepalive` are
`get(..., fallback=None)` values, so `Option String`; `AllowedIPs` falls
back to the string default and is always present. -/
structure Config where
  client_private_key : String
  server_public_key : String
  endpoint_ip : String
  endpoint_port : Int
  Address : Option String
  DNS : Option String
  AllowedIPs : String
  PersistentKeepalive : Option String
deriving DecidableEq, Repr

/-- Python truthiness of `config.get(key)` for an optional string value:
`None` and the empty string are falsy. -/
def pyTruthy : Option String → Bool
  | none => false
  | some s => !s.isEmpty

/-- The Python error message raised when `diagnostics` calls
`ui.print_warning`: `src/ui.py` defines no such function, so the module
attribute lookup fails with `AttributeError`. -/
def printWarningError : String :=
  "module \x27ui\x27 has no attribute \x27print_warning\x27"

/-- Embedding of `diagnostics.lint_config`.  The source calls
`ui.print_warning` whenever a lint condition fires — first the DNS-leak
condition ("0.0.0.0/0" occurring in `AllowedIPs` with falsy `DNS`), then
the missing-keepalive condition (falsy `PersistentKeepalive`) — but
`src/ui.py` defines no `print_warning`, so the first firing condition
raises `AttributeError` before any warning text is emitted; only a
configuration firing neither condition returns normally.  The raised
`AttributeError` is modelled as `Except.error`. -/
def lint_config (config : Config) : Except String Unit :=
  if containsSubstr "0.0.0.0/0" config.AllowedIPs && !pyTruthy config.DNS then
    .error printWarningError
  else if !pyTruthy config.PersistentKeepalive then
    .error printWarningError
  else .ok ()

/-- The two guidance trees of `wg_doctor` (`run_no_handshake_quiz` and
`run_post_handshake_checks`). -/
inductive GuidanceTree where
  | noHandshake
  | postHandshake
deriving DecidableEq, Repr

/-- Observable events of one orchestrator run (`wg_doctor.main`), in
execution order. -/
inductive Event where
  | toolsChecked (ok : Bool)
  | configParsed (ok : Bool)
  | linted (ok : Bool)
  | keyDerived (ok : Bool)
  | sanityChecked (errorReported : Bool)
  | pinged (ok : Bool)
  | handshakeChecked (ok : Bool) (msg : String)
  | treeEntered (t : GuidanceTree)
  | exited (code : Nat)
  | completed
deriving DecidableEq, Repr

/-- The environment one run of `wg_doctor.main` executes against: the
outcome of each external interaction, in the order main performs them.
`interfaceName` is the base name of the config file without extension
(`os.path.splitext(os.path.basename(...))[0]`); `now` is `int(time.time())`
at the moment of the handshake check. -/
structure Env where
  toolsOk : Bool
  config? : Option Config
  derivedPubkey : Option String
  pingResult : ExecResult
  interfaceName : String
  handshakeQuery : ExecResult
  now : Int

/-- Embedding of `wg_doctor.main`, as the list of observable events of one run:
tool check (fatal, exit 1), config parse (fatal, exit 1), lint — which
aborts with exit 1 whenever a warning condition fires, because the
`AttributeError` from the missing `ui.print_warning` reaches the
top-level `except Exception` handler of `wg_doctor` — key derivation
(fatal, exit 1), key sanity check (advisory), reachability ping
(advisory), handshake check, and the guidance tree selected by its
boolean result. -/
def wgMain (env : Env) : List Event :=
  if env.toolsOk then
    Event.toolsChecked true ::
    match env.config? with
    | none => [Event.configParsed false, Event.exited 1]
    | some config =>
      Event.configParsed true ::
      match lint_config config with
      | .error _ => [Event.linted false, Event.exited 1]
      | .ok _ =>
        Event.linted true ::
        match env.derivedPubkey with
        | none => [Event.keyDerived false, Event.exited 1]
        | some derived_pubkey =>
          Event.keyDerived true ::
          Event.sanityChecked (derived_pubkey == config.server_public_key) ::
          Event.pinged (check_endpoint_connectivity config.endpoint_ip env.pingResult).fst ::
          Event.handshakeChecked
            (check_handshake env.interfaceName env.handshakeQuery env.now).fst
            (check_handshake env.interfaceName env.handshakeQuery env.now).snd ::
          Event.treeEntered
            (if (check_handshake env.interfaceName env.handshakeQuery env.now).fst then
              GuidanceTree.postHandshake
            else GuidanceTree.noHandshake) ::
          [Event.completed]
  else [Event.toolsChecked false, Event.exited 1]

/-- A sample parsed configuration routing all traffic with no DNS value:
the DNS-leak lint condition fires on it, so a real run aborts inside the
lint step. -/
def sampleConfig : Config :=
  { client_private_key := "CPRIV"
    server_public_key := "SPUB"
    endpoint_ip := "203.0.113.5"
    endpoint_port := 51820
    Address := some "10.0.0.2/32"
    DNS := none
    AllowedIPs := "0.0.0.0/0"
    PersistentKeepalive := some "25" }

/-- A parsed configuration firing neither lint condition (DNS set,
keepalive set), so the linter returns normally and the run proceeds. -/
def quietConfig : Config :=
  { client_private_key := "CPRIV"
    server_public_key := "SPUB"
    endpoint_ip := "203.0.113.5"
    endpoint_port := 51820
    Address := some "10.0.0.2/32"
    DNS := some "1.1.1.1"
    AllowedIPs := "0.0.0.0/0"
    PersistentKeepalive := some "25" }

example : wgMain ⟨true, some sampleConfig, some "DPUB", .ok "", "wg0", .ok "k\t10", 100⟩ =
    [Event.toolsChecked true, Event.configParsed true, Event.linted false,
     Event.exited 1] := by decide
example : wgMain ⟨true, some quietConfig, some "DPUB", .ok "", "wg0", .ok "k\t10", 100⟩ =
    [Event.toolsChecked true, Event.configParsed true, Event.linted true,
     Event.keyDerived true, Event.sanityChecked false, Event.pinged true,
     Event.handshakeChecked true "Recent handshake found! (90 seconds ago)",
     Event.treeEntered GuidanceTree.postHandshake, Event.completed] := by decide

/-- A list is non-empty exactly when `isEmpty` is `false`. -/
theorem isEmpty_false_of_ne {l : List Char} (h : l ≠ []) : l.isEmpty = false := by
  cases l with
  | nil => exact absurd rfl h
  | cons a t => rfl

/-- Splitting the empty list yields the single empty group. -/
theorem splitOnChar_nil (sep : Char) : splitOnChar sep [] = [[]] := rfl

/-- C1: Handshake freshness rule.  For a well-formed single-record output
(stripped stdout splits on tabs into exactly two fields whose second field
parses as the integer `t`), let `d = current_time - t`: if `d < 180` the
classifier returns success with "Recent handshake found! (d seconds ago)";
if `d >= 180` it returns failure with "Stale handshake found. (Last
handshake was d // 60 minutes ago)" using floor division. -/
theorem check_handshake_freshness_rule
    (interface stdout : String) (current_time t : Int) (k ts : List Char)
    (hsplit : splitOnChar '\t' (pyStripChars stdout.data) = [k, ts])
    (hts : pyInt? ts = some t) :
    (current_time - t < 180 →
      check_handshake interface (.ok stdout) current_time =
        (true, "Recent handshake found! (" ++ toString (current_time - t) ++
          " seconds ago)")) ∧
    (180 ≤ current_time - t →
      check_handshake interface (.ok stdout) current_time =
        (false, "Stale handshake found. (Last handshake was " ++
          toString (Int.fdiv (current_time - t) 60) ++ " minutes ago)")) := by
  have hne : (pyStripChars stdout.data).isEmpty = false := by
    apply isEmpty_false_of_ne
    intro h
    rw [h, splitOnChar_nil] at hsplit
    exact absurd hsplit (by simp)
  constructor
  · intro hd
    simp [check_handshake, hne, hsplit, hts, hd]
  · intro hd
    have hnd : ¬(current_time - t < 180) := by omega
    simp [check_handshake, hne, hsplit, hts, hnd]

/-- Witness for C1 at the boundary: timestamp 421 at time 600 (d = 179)
is Fresh; timestamp 420 at time 600 (d = 180) is Stale reporting
3 minutes. -/
theorem check_handshake_freshness_rule_witness :
    check_handshake "wg0" (.ok "abc\t421") 600 =
      (true, "Recent handshake found! (179 seconds ago)") ∧
    check_handshake "wg0" (.ok "abc\t420") 600 =
      (false, "Stale handshake found. (Last handshake was 3 minutes ago)") := by
  constructor
  · exact ((check_handshake_freshness_rule "wg0" "abc\t421" 600 421 "abc".data
      "421".data (by decide) (by decide)).1 (by decide)).trans (by decide)
  · exact ((check_handshake_freshness_rule "wg0" "abc\t420" 600 420 "abc".data
      "420".data (by decide) (by decide)).2 (by decide)).trans (by decide)

/-- The Absent verdict arises exactly when the stripped query output is
the empty string; every other branch of the classifier produces a
different constructor. -/
theorem handshakeVerdict_ok_absent_iff (stdout : String) (current_time : Int) :
    handshakeVerdict (.ok stdout) current_time = .absent ↔
      pyStripChars stdout.data = [] := by
  cases hl : pyStripChars stdout.data with
  | nil => simp [handshakeVerdict, hl]
  | cons a tcs =>
    rcases hsp : splitOnChar '\t' (a :: tcs) with _ | ⟨f1, _ | ⟨f2, rest⟩⟩
    · simp [handshakeVerdict, hl, hsp]
    · simp [handshakeVerdict, hl, hsp]
    · cases rest with
      | nil =>
        cases hint : pyInt? f2 with
        | none => simp [handshakeVerdict, hl, hsp, hint]
        | some t =>
          by_cases hc : current_time - t < 180 <;>
            simp [handshakeVerdict, hl, hsp, hint, hc]
      | cons c3 rest3 => simp [handshakeVerdict, hl, hsp]

/-- C10: a well-formed record with timestamp 0 (a configured peer that has
never completed a handshake) goes through the stale branch, reporting
`current_time // 60` minutes, provided the wall clock is at least 180
seconds past the epoch; it is never classified Absent, since Absent arises
only from empty stripped output. -/
theorem zero_timestamp_stale
    (interface stdout : String) (current_time : Int) (k ts : List Char)
    (hsplit : splitOnChar '\t' (pyStripChars stdout.data) = [k, ts])
    (hts : pyInt? ts = some 0)
    (hclock : 180 ≤ current_time) :
    check_handshake interface (.ok stdout) current_time =
      (false, "Stale handshake found. (Last handshake was " ++
        toString (Int.fdiv current_time 60) ++ " minutes ago)") ∧
    handshakeVerdict (.ok stdout) current_time = .stale (Int.fdiv current_time 60) ∧
    (∀ (out : String) (c : Int),
      handshakeVerdict (.ok out) c = .absent ↔ pyStripChars out.data = []) := by
  have hne : (pyStripChars stdout.data).isEmpty = false := by
    apply isEmpty_false_of_ne
    intro h
    rw [h, splitOnChar_nil] at hsplit
    exact absurd hsplit (by simp)
  have hnd : ¬(current_time - 0 < 180) := by omega
  refine ⟨?_, ?_, fun out c => handshakeVerdict_ok_absent_iff out c⟩
  · simp [check_handshake, hne, hsplit, hts, hnd]
    omega
  · simp [handshakeVerdict, hne, hsplit, hts, hnd]
    omega

/-- Witness for C10: output "peerkey\t0" at wall-clock time 600 is Stale
reporting 10 minutes; Absent at time 600 holds exactly for empty stripped
output. -/
theorem zero_timestamp_stale_witness :
    check_handshake "wg0" (.ok "peerkey\t0") 600 =
      (false, "Stale handshake found. (Last handshake was 10 minutes ago)") ∧
    (handshakeVerdict (.ok "peerkey\t0") 600 = .absent ↔
      pyStripChars "peerkey\t0".data = []) := by
  have h := zero_timestamp_stale "wg0" "peerkey\t0" 600 "peerkey".data "0".data
    (by decide) (by decide) (by decide)
  exact ⟨h.1.trans (by decide), h.2.2 "peerkey\t0" 600⟩

/-- C4: total error handling of the handshake classifier on captured
output.  Empty stripped output yields the Absent result ("No handshake
found for any peer on this interface.") and never the Unavailable parse
failure; non-empty output that does not split into exactly two
tab-separated fields, or whose timestamp field is not an integer, yields
"Failed to parse handshake data." (the caught `ValueError`).  The
embedding is a total function, matching the catch-all handlers of the source:
no exception escapes to the caller. -/
theorem check_handshake_total_error_handling
    (interface : String) (current_time : Int) :
    (∀ stdout : String, pyStripChars stdout.data = [] →
      check_handshake interface (.ok stdout) current_time =
        (false, "No handshake found for any peer on this interface.") ∧
      check_handshake interface (.ok stdout) current_time ≠
        (false, "Failed to parse handshake data.")) ∧
    (∀ stdout : String, pyStripChars stdout.data ≠ [] →
      (splitOnChar '\t' (pyStripChars stdout.data)).length ≠ 2 →
      check_handshake interface (.ok stdout) current_time =
        (false, "Failed to parse handshake data.")) ∧
    (∀ (stdout : String) (k ts : List Char),
      splitOnChar '\t' (pyStripChars stdout.data) = [k, ts] →
      pyInt? ts = none →
      check_handshake interface (.ok stdout) current_time =
        (false, "Failed to parse handshake data.")) := by
  refine ⟨fun stdout h => ?_, fun stdout hne hlen => ?_, fun stdout k ts hsp hint => ?_⟩
  · have : (pyStripChars stdout.data).isEmpty = true := by rw [h]; rfl
    constructor
    · simp [check_handshake, this]
    · simp [check_handshake, this]
  · have hb : (pyStripChars stdout.data).isEmpty = false := isEmpty_false_of_ne hne
    rcases hsp : splitOnChar '\t' (pyStripChars stdout.data) with _ | ⟨f1, _ | ⟨f2, _ | ⟨f3, rest⟩⟩⟩
    · simp [check_handshake, hb, hsp]
    · simp [check_handshake, hb, hsp]
    · rw [hsp] at hlen; simp at hlen
    · simp [check_handshake, hb, hsp]
  · have hb : (pyStripChars stdout.data).isEmpty = false := by
      apply isEmpty_false_of_ne
      intro h
      rw [h, splitOnChar_nil] at hsp
      exact absurd hsp (by simp)
    simp [check_handshake, hb, hsp, hint]

/-- Witness for C4: whitespace-only output is Absent and not the parse
failure; tab-less output and a non-integer timestamp both yield the parse
failure. -/
theorem check_handshake_total_error_handling_witness :
    (check_handshake "wg0" (.ok "  ") 600 =
        (false, "No handshake found for any peer on this interface.") ∧
      check_handshake "wg0" (.ok "  ") 600 ≠
        (false, "Failed to parse handshake data.")) ∧
    check_handshake "wg0" (.ok "garbage") 600 =
      (false, "Failed to parse handshake data.") ∧
    check_handshake "wg0" (.ok "key\tnotanumber") 600 =
      (false, "Failed to parse handshake data.") := by
  refine ⟨(check_handshake_total_error_handling "wg0" 600).1 "  " (by decide),
    (check_handshake_total_error_handling "wg0" 600).2.1 "garbage" (by decide) (by decide),
    (check_handshake_total_error_handling "wg0" 600).2.2 "key\tnotanumber"
      "key".data "notanumber".data (by decide) (by decide)⟩

/-- Bridge between the boolean returned by `check_handshake` and the
spec-level classification of its verdict: the bool is `true` exactly on
Fresh verdicts. -/
theorem classify_eq_of_fst (interface : String) (r : ExecResult) (current_time : Int) :
    classify (handshakeVerdict r current_time) =
      (if (check_handshake interface r current_time).fst = true then
        Classification.hasHandshake else Classification.noHandshake) := by
  cases r with
  | ok s =>
    cases hl : pyStripChars s.data with
    | nil => simp [check_handshake, handshakeVerdict, classify, hl]
    | cons a tcs =>
      rcases hsp : splitOnChar '\t' (a :: tcs) with _ | ⟨f1, _ | ⟨f2, _ | ⟨f3, rest⟩⟩⟩
      · simp [check_handshake, handshakeVerdict, classify, hl, hsp]
      · simp [check_handshake, handshakeVerdict, classify, hl, hsp]
      · cases hint : pyInt? f2 with
        | none => simp [check_handshake, handshakeVerdict, classify, hl, hsp, hint]
        | some t =>
          by_cases hc : current_time - t < 180 <;>
            simp [check_handshake, handshakeVerdict, classify, hl, hsp, hint, hc]
      · simp [check_handshake, handshakeVerdict, classify, hl, hsp]
  | timeout => simp [check_handshake, handshakeVerdict, classify]
  | calledProcessError => simp [check_handshake, handshakeVerdict, classify]
  | fileNotFound => simp [check_handshake, handshakeVerdict, classify]

/-- C2: classification is a pure function of the single handshake
verdict.  In every run the classifier is invoked at most once and at most
one guidance tree is entered; a guidance tree is entered exactly when the
classifier was invoked, so nothing but the classification selects a tree;
and every run that reaches the classifier (tools present, config parsed,
lint returned normally, key derived) invokes it exactly once, and the
single tree entered is the classification of its verdict: `HasHandshake`
(Fresh) selects the post-handshake tree, `NoHandshake` (Stale, Absent,
Unavailable) selects the no-handshake tree. -/
theorem classification_pure_single (env : Env) :
    ((wgMain env).countP (fun e => match e with
        | Event.handshakeChecked _ _ => true | _ => false) ≤ 1) ∧
    ((wgMain env).countP (fun e => match e with
        | Event.treeEntered _ => true | _ => false) ≤ 1) ∧
    ((∃ t, Event.treeEntered t ∈ wgMain env) ↔
      (∃ b m, Event.handshakeChecked b m ∈ wgMain env)) ∧
    (∀ (cfg : Config) (pk : String),
      env.toolsOk = true → env.config? = some cfg →
      lint_config cfg = .ok () → env.derivedPubkey = some pk →
      ((wgMain env).countP (fun e => match e with
          | Event.handshakeChecked _ _ => true | _ => false) = 1 ∧
       (wgMain env).filter (fun e => match e with
          | Event.treeEntered _ => true | _ => false) =
         [Event.treeEntered
           (match classify (handshakeVerdict env.handshakeQuery env.now) with
            | Classification.hasHandshake => GuidanceTree.postHandshake
            | Classification.noHandshake => GuidanceTree.noHandshake)])) := by
  refine ⟨?_, ?_, ?_, ?_⟩
  case _ =>
    cases htools : env.toolsOk with
    | false => simp [wgMain, htools]
    | true =>
      cases hcfg : env.config? with
      | none => simp [wgMain, htools, hcfg]
      | some cfg =>
        cases hlint : lint_config cfg with
        | error e => simp [wgMain, htools, hcfg, hlint]
        | ok u =>
          cases hpk : env.derivedPubkey with
          | none => simp [wgMain, htools, hcfg, hlint, hpk]
          | some pk => simp [wgMain, htools, hcfg, hlint, hpk]
  case _ =>
    cases htools : env.toolsOk with
    | false => simp [wgMain, htools]
    | true =>
      cases hcfg : env.config? with
      | none => simp [wgMain, htools, hcfg]
      | some cfg =>
        cases hlint : lint_config cfg with
        | error e => simp [wgMain, htools, hcfg, hlint]
        | ok u =>
          cases hpk : env.derivedPubkey with
          | none => simp [wgMain, htools, hcfg, hlint, hpk]
          | some pk => simp [wgMain, htools, hcfg, hlint, hpk]
  case _ =>
    cases htools : env.toolsOk with
    | false => simp [wgMain, htools]
    | true =>
      cases hcfg : env.config? with
      | none => simp [wgMain, htools, hcfg]
      | some cfg =>
        cases hlint : lint_config cfg with
        | error e => simp [wgMain, htools, hcfg, hlint]
        | ok u =>
          cases hpk : env.derivedPubkey with
          | none => simp [wgMain, htools, hcfg, hlint, hpk]
          | some pk => simp [wgMain, htools, hcfg, hlint, hpk]
  case _ =>
    intro cfg pk htools hcfg hlint hpk
    rw [classify_eq_of_fst env.interfaceName env.handshakeQuery env.now]
    cases hfst : (check_handshake env.interfaceName env.handshakeQuery env.now).fst <;>
      simp [wgMain, htools, hcfg, hlint, hpk, hfst]

/-- Witness for C2: a concrete run with a lint-clean config and a fresh
handshake enters the post-handshake tree, with exactly one classifier
invocation. -/
theorem classification_pure_single_witness :
    (wgMain ⟨true, some quietConfig, some "DPUB", .ok "", "wg0", .ok "k\t10", 100⟩).countP
        (fun e => match e with
          | Event.handshakeChecked _ _ => true | _ => false) = 1 ∧
    (wgMain ⟨true, some quietConfig, some "DPUB", .ok "", "wg0", .ok "k\t10", 100⟩).filter
        (fun e => match e with
          | Event.treeEntered _ => true | _ => false) =
      [Event.treeEntered GuidanceTree.postHandshake] := by
  have h := (classification_pure_single
    ⟨true, some quietConfig, some "DPUB", .ok "", "wg0", .ok "k\t10", 100⟩).2.2.2
    quietConfig "DPUB" rfl rfl rfl rfl
  exact ⟨h.1, h.2.trans (by decide)⟩

/-- C3: the orchestrator has a fourth abort point beyond the tool check,
config parse and key derivation.  In a run with tools present, a parsed
configuration and a derivable key, whose configuration fires the DNS-leak
lint condition, the lint step itself aborts the run: `lint_config` calls
`ui.print_warning`, undefined in `src/ui.py`, so the `AttributeError`
reaches the top-level handler and the process exits 1 before key
derivation, the reachability check, the handshake check or any guidance
tree. -/
theorem lint_crash_aborts_run :
    lint_config sampleConfig = Except.error printWarningError ∧
    wgMain ⟨true, some sampleConfig, some "DPUB", .ok "", "wg0", .ok "k\t10", 100⟩ =
      [Event.toolsChecked true, Event.configParsed true, Event.linted false,
       Event.exited 1] ∧
    Event.exited 1 ∈
      wgMain ⟨true, some sampleConfig, some "DPUB", .ok "", "wg0", .ok "k\t10", 100⟩ ∧
    Event.completed ∉
      wgMain ⟨true, some sampleConfig, some "DPUB", .ok "", "wg0", .ok "k\t10", 100⟩ ∧
    Event.treeEntered GuidanceTree.noHandshake ∉
      wgMain ⟨true, some sampleConfig, some "DPUB", .ok "", "wg0", .ok "k\t10", 100⟩ ∧
    Event.treeEntered GuidanceTree.postHandshake ∉
      wgMain ⟨true, some sampleConfig, some "DPUB", .ok "", "wg0", .ok "k\t10", 100⟩ := by
  refine ⟨rfl, by decide, by decide, by decide, by decide, by decide⟩

/-- C7: the key sanity check is non-fatal.  When the derived public key
equals the configured server public key, the configuration-error report
appears in the trace and the run still performs the reachability check,
the handshake check, enters a guidance tree and completes, with no
abnormal exit. -/
theorem sanity_check_nonfatal (env : Env) (cfg : Config) (pk : String)
    (htools : env.toolsOk = true) (hcfg : env.config? = some cfg)
    (hlint : lint_config cfg = .ok ())
    (hpk : env.derivedPubkey = some pk) (heq : pk = cfg.server_public_key) :
    Event.sanityChecked true ∈ wgMain env ∧
    Event.pinged (check_endpoint_connectivity cfg.endpoint_ip env.pingResult).fst ∈
      wgMain env ∧
    Event.handshakeChecked
      (check_handshake env.interfaceName env.handshakeQuery env.now).fst
      (check_handshake env.interfaceName env.handshakeQuery env.now).snd ∈
      wgMain env ∧
    (∃ t, Event.treeEntered t ∈ wgMain env) ∧
    Event.completed ∈ wgMain env ∧
    Event.exited 1 ∉ wgMain env := by
  have hbeq : (pk == cfg.server_public_key) = true := by
    rw [heq]; exact beq_self_eq_true _
  refine ⟨?_, ?_, ?_, ⟨if (check_handshake env.interfaceName env.handshakeQuery
    env.now).fst then GuidanceTree.postHandshake else GuidanceTree.noHandshake, ?_⟩,
    ?_, ?_⟩ <;>
    simp [wgMain, htools, hcfg, hlint, hpk, hbeq]

/-- Witness for C7: a concrete lint-clean run whose derived key equals the
server key reports the configuration error and still completes. -/
theorem sanity_check_nonfatal_witness :
    Event.sanityChecked true ∈
      wgMain ⟨true, some quietConfig, some "SPUB", .ok "", "wg0", .ok "", 100⟩ ∧
    Event.completed ∈
      wgMain ⟨true, some quietConfig, some "SPUB", .ok "", "wg0", .ok "", 100⟩ ∧
    Event.exited 1 ∉
      wgMain ⟨true, some quietConfig, some "SPUB", .ok "", "wg0", .ok "", 100⟩ := by
  have h := sanity_check_nonfatal
    ⟨true, some quietConfig, some "SPUB", .ok "", "wg0", .ok "", 100⟩
    quietConfig "SPUB" rfl rfl rfl rfl rfl
  exact ⟨h.1, h.2.2.2.2.1, h.2.2.2.2.2⟩

/-- Splitting never yields an empty group list. -/
theorem splitOnChar_ne_nil (sep : Char) (cs : List Char) :
    splitOnChar sep cs ≠ [] := by
  cases cs with
  | nil => simp [splitOnChar]
  | cons c rest =>
    by_cases hc : c = sep
    · simp [splitOnChar, hc]
    · cases h : splitOnChar sep rest with
      | nil => simp [splitOnChar, hc, h]
      | cons g gs => simp [splitOnChar, hc, h]

/-- The number of groups a split produces is the separator count plus
one. -/
theorem length_splitOnChar (sep : Char) (cs : List Char) :
    (splitOnChar sep cs).length = cs.count sep + 1 := by
  induction cs with
  | nil => simp [splitOnChar]
  | cons c rest ih =>
    by_cases hc : c = sep
    · subst hc
      simp [splitOnChar, ih, List.count_cons]
    · cases h : splitOnChar sep rest with
      | nil => exact absurd h (splitOnChar_ne_nil sep rest)
      | cons g gs =>
        rw [h] at ih
        simp [splitOnChar, hc, h, List.count_cons, Ne.symm hc] at ih ⊢
        omega

/-- Splitting on one separator preserves the total count of any other
character across the groups. -/
theorem sum_count_splitOnChar (sep c : Char) (hne : c ≠ sep) (cs : List Char) :
    ((splitOnChar sep cs).map (fun l => l.count c)).sum = cs.count c := by
  induction cs with
  | nil => simp [splitOnChar]
  | cons a rest ih =>
    by_cases ha : a = sep
    · subst ha
      simp [splitOnChar, List.count_cons, Ne.symm hne, ih]
    · cases h : splitOnChar sep rest with
      | nil => exact absurd h (splitOnChar_ne_nil sep rest)
      | cons g gs =>
        rw [h] at ih
        simp [splitOnChar, ha, h, List.count_cons] at ih ⊢
        omega

/-- Non-empty stripped output that does not split into exactly two
tab-separated fields takes the caught-`ValueError` branch. -/
theorem check_handshake_parse_fail (interface stdout : String)
    (current_time : Int)
    (hne : pyStripChars stdout.data ≠ [])
    (hlen : (splitOnChar '\t' (pyStripChars stdout.data)).length ≠ 2) :
    check_handshake interface (.ok stdout) current_time =
      (false, "Failed to parse handshake data.") ∧
    handshakeVerdict (.ok stdout) current_time =
      .unavailable "Failed to parse handshake data." := by
  have hb : (pyStripChars stdout.data).isEmpty = false := isEmpty_false_of_ne hne
  rcases hsp : splitOnChar '\t' (pyStripChars stdout.data) with
    _ | ⟨f1, _ | ⟨f2, _ | ⟨f3, rest⟩⟩⟩
  · exact ⟨by simp [check_handshake, hb, hsp], by simp [handshakeVerdict, hb, hsp]⟩
  · exact ⟨by simp [check_handshake, hb, hsp], by simp [handshakeVerdict, hb, hsp]⟩
  · rw [hsp] at hlen; simp at hlen
  · exact ⟨by simp [check_handshake, hb, hsp], by simp [handshakeVerdict, hb, hsp]⟩

/-- C5 counterexample: for the two-record output "k1\t100\nk2\t200" at
time 160, the classifier yields the Unavailable parse failure, while the
first record line alone yields a Fresh verdict — the multi-line verdict
does not equal the verdict of the first line. -/
theorem multipeer_first_line_counterexample :
    check_handshake "wg0" (.ok "k1\t100\nk2\t200") 160 =
      (false, "Failed to parse handshake data.") ∧
    check_handshake "wg0" (.ok "k1\t100") 160 =
      (true, "Recent handshake found! (60 seconds ago)") ∧
    check_handshake "wg0" (.ok "k1\t100\nk2\t200") 160 ≠
      check_handshake "wg0" (.ok "k1\t100") 160 ∧
    handshakeVerdict (.ok "k1\t100\nk2\t200") 160 ≠
      handshakeVerdict (.ok "k1\t100") 160 := by decide

/-- C5 amended: a multi-record handshake dump (two or more lines, each
containing at least one tab) is not reduced to its first line: the whole
output fails the exactly-two-field unpack and is classified Unavailable
("Failed to parse handshake data."). -/
theorem multirecord_unavailable (interface stdout : String) (current_time : Int)
    (lines : List (List Char))
    (hlines : splitOnChar '\n' (pyStripChars stdout.data) = lines)
    (hlen : 2 ≤ lines.length)
    (htabs : ∀ l ∈ lines, 1 ≤ l.count '\t') :
    check_handshake interface (.ok stdout) current_time =
      (false, "Failed to parse handshake data.") ∧
    handshakeVerdict (.ok stdout) current_time =
      .unavailable "Failed to parse handshake data." := by
  have hsum := sum_count_splitOnChar '\n' '\t' (by decide) (pyStripChars stdout.data)
  rw [hlines] at hsum
  rcases lines with _ | ⟨l1, _ | ⟨l2, rest⟩⟩
  · simp at hlen
  · simp at hlen
  · have h1 := htabs l1 (by simp)
    have h2 := htabs l2 (by simp)
    have hrest : 0 ≤ (rest.map (fun l => l.count '\t')).sum := Nat.zero_le _
    simp only [List.map_cons, List.sum_cons] at hsum
    have hcount : 2 ≤ (pyStripChars stdout.data).count '\t' := by omega
    have hne : pyStripChars stdout.data ≠ [] := by
      intro h
      rw [h] at hcount
      simp at hcount
    apply check_handshake_parse_fail interface stdout current_time hne
    rw [length_splitOnChar]
    omega

/-- Witness for the amended C5 at the two-record dump. -/
theorem multirecord_unavailable_witness :
    check_handshake "wg0" (.ok "k1\t100\nk2\t200") 160 =
      (false, "Failed to parse handshake data.") ∧
    handshakeVerdict (.ok "k1\t100\nk2\t200") 160 =
      .unavailable "Failed to parse handshake data." :=
  multirecord_unavailable "wg0" "k1\t100\nk2\t200" 160
    ["k1\t100".data, "k2\t200".data] (by decide) (by decide) (by decide)

/-- A substring of the right part is a substring of the whole. -/
theorem containsSubChars_append_right (pat l m : List Char)
    (h : containsSubChars pat m = true) :
    containsSubChars pat (l ++ m) = true := by
  induction l with
  | nil => simpa using h
  | cons c t ih =>
    simp only [List.cons_append, containsSubChars, Bool.or_eq_true]
    exact Or.inr ih

/-- C6 counterexample: the ping-timeout report is "Ping timed out. The
server at <ip> is unresponsive." and does not contain the phrase "may be
in a bad state". -/
theorem ping_timeout_message_counterexample :
    containsSubstr "may be in a bad state"
      (check_endpoint_connectivity "203.0.113.5" .timeout).snd = false := by
  decide

/-- C6 amended: every external-call timeout is non-fatal — the function
returns a failure value and, in the orchestrator, a run that reaches the
timed-out ping and handshake steps still completes normally past them —
and the two `wg show` timeouts carry a "may be in a bad state" message,
while the ping timeout reports the server unresponsive without that
phrase. -/
theorem timeouts_nonfatal (ip interface key : String) (current_time : Int) :
    check_endpoint_connectivity ip .timeout =
      (false, "Ping timed out. The server at " ++ ip ++ " is unresponsive.") ∧
    (find_interface_for_peer key .timeout).fst = none ∧
    containsSubstr "may be in a bad state"
      (find_interface_for_peer key .timeout).snd = true ∧
    (check_handshake interface .timeout current_time).fst = false ∧
    containsSubstr "may be in a bad state"
      (check_handshake interface .timeout current_time).snd = true ∧
    (∀ (env : Env) (cfg : Config) (pk : String),
      env.toolsOk = true → env.config? = some cfg → lint_config cfg = .ok () →
      env.derivedPubkey = some pk →
      env.pingResult = .timeout → env.handshakeQuery = .timeout →
      Event.completed ∈ wgMain env ∧ Event.exited 1 ∉ wgMain env) := by
  have hfind : (find_interface_for_peer key ExecResult.timeout).snd =
      "`wg show` command timed out. The interface may be in a bad state." := rfl
  refine ⟨rfl, rfl, by rw [hfind]; decide, rfl, ?_, ?_⟩
  · show containsSubChars _
      (("`wg show` command timed out while checking for handshake. The interface \x27" ++
        interface ++ "\x27 may be in a bad state.").data) = true
    rw [String.data_append, String.data_append]
    exact containsSubChars_append_right _ _ _ (by decide)
  · intro env cfg pk htools hcfg hlint hpk hping hhs
    constructor
    · simp [wgMain, htools, hcfg, hlint, hpk]
    · simp [wgMain, htools, hcfg, hlint, hpk]

/-- Witness for the amended C6 at concrete inputs, including a full run in
which both the ping and the handshake query time out and the run still
reaches normal completion. -/
theorem timeouts_nonfatal_witness :
    check_endpoint_connectivity "203.0.113.5" .timeout =
      (false, "Ping timed out. The server at 203.0.113.5 is unresponsive.") ∧
    containsSubstr "may be in a bad state"
      (check_handshake "wg0" .timeout 600).snd = true ∧
    Event.completed ∈
      wgMain ⟨true, some quietConfig, some "DPUB", .timeout, "wg0", .timeout, 600⟩ ∧
    Event.exited 1 ∉
      wgMain ⟨true, some quietConfig, some "DPUB", .timeout, "wg0", .timeout, 600⟩ := by
  have h := timeouts_nonfatal "203.0.113.5" "wg0" "SPUB" 600
  have h2 := h.2.2.2.2.2
    ⟨true, some quietConfig, some "DPUB", .timeout, "wg0", .timeout, 600⟩
    quietConfig "DPUB" rfl rfl rfl rfl rfl rfl
  exact ⟨h.1.trans (by decide), h.2.2.2.2.1, h2.1, h2.2⟩

/-- C8: the linter does not behave as claimed, because the source calls a
presentation function that does not exist.  For a configuration routing
all traffic with no DNS value, no DNS-leak warning is produced: the first
`ui.print_warning` call raises `AttributeError` (undefined in
`src/ui.py`) and the run aborts with exit 1, so the linter does affect
control flow.  A configuration with a falsy `PersistentKeepalive` —
including the present-but-empty value "" that `configparser` yields for a
bare `PersistentKeepalive =` line — aborts the same way; only a
configuration firing neither condition lets the run continue to the
guidance trees. -/
theorem lint_attribute_error :
    lint_config sampleConfig = Except.error printWarningError ∧
    lint_config ⟨"CPRIV", "SPUB", "203.0.113.5", 51820, none, some "1.1.1.1",
        "10.0.0.0/24", some ""⟩ = Except.error printWarningError ∧
    lint_config ⟨"CPRIV", "SPUB", "203.0.113.5", 51820, none, some "1.1.1.1",
        "10.0.0.0/24", none⟩ = Except.error printWarningError ∧
    lint_config quietConfig = Except.ok () ∧
    Event.exited 1 ∈
      wgMain ⟨true, some sampleConfig, some "DPUB", .ok "", "wg0", .ok "", 100⟩ ∧
    Event.completed ∉
      wgMain ⟨true, some sampleConfig, some "DPUB", .ok "", "wg0", .ok "", 100⟩ ∧
    Event.completed ∈
      wgMain ⟨true, some quietConfig, some "DPUB", .ok "", "wg0", .ok "", 100⟩ :=
  ⟨rfl, rfl, rfl, rfl, by decide, by decide, by decide⟩

/-- The dump-scanning loop returns `none` when no line is a peer record
for the key. -/
theorem find_peer_line_eq_none (key : String) (lines : List (List Char))
    (h : ∀ l ∈ lines, ¬(4 < (splitOnChar '\t' l).length ∧
        (splitOnChar '\t' l).getD 1 [] = key.data)) :
    find_peer_line key lines = none := by
  induction lines with
  | nil => rfl
  | cons l rest ih =>
    have hl := h l (by simp)
    simp only [find_peer_line]
    rw [if_neg (by simpa using hl)]
    exact ih (fun l' hm => h l' (by simp [hm]))

/-- The dump-scanning loop returns field 0 of the first matching peer
record. -/
theorem find_peer_line_first (key : String) (pre : List (List Char))
    (line : List Char) (post : List (List Char))
    (hpre : ∀ l ∈ pre, ¬(4 < (splitOnChar '\t' l).length ∧
        (splitOnChar '\t' l).getD 1 [] = key.data))
    (h4 : 4 < (splitOnChar '\t' line).length)
    (hkey : (splitOnChar '\t' line).getD 1 [] = key.data) :
    find_peer_line key (pre ++ line :: post) =
      some ((splitOnChar '\t' line).getD 0 []) := by
  induction pre with
  | nil =>
    simp only [List.nil_append, find_peer_line]
    rw [if_pos (by
      simp only [Bool.and_eq_true, decide_eq_true_eq]
      exact ⟨h4, hkey⟩)]
  | cons l rest ih =>
    have hl := hpre l (by simp)
    simp only [List.cons_append, find_peer_line]
    rw [if_neg (by simpa using hl)]
    exact ih (fun l' hm => hpre l' (by simp [hm]))

/-- C9: `find_interface_for_peer` returns the interface name (field 0) of
the first dump line with more than 4 tab-separated fields whose field 1
equals the server public key; it returns `None` when no line matches,
on timeout, on command failure and on a missing executable — the
embedding is total, so no exception reaches the caller. -/
theorem find_interface_for_peer_spec (key : String) :
    (∀ stdout : String,
      (∀ l ∈ splitOnChar '\n' (pyStripChars stdout.data),
        ¬(4 < (splitOnChar '\t' l).length ∧
          (splitOnChar '\t' l).getD 1 [] = key.data)) →
      (find_interface_for_peer key (.ok stdout)).fst = none) ∧
    (∀ (stdout : String) (pre : List (List Char)) (line : List Char)
        (post : List (List Char)),
      splitOnChar '\n' (pyStripChars stdout.data) = pre ++ line :: post →
      (∀ l ∈ pre, ¬(4 < (splitOnChar '\t' l).length ∧
        (splitOnChar '\t' l).getD 1 [] = key.data)) →
      4 < (splitOnChar '\t' line).length →
      (splitOnChar '\t' line).getD 1 [] = key.data →
      (find_interface_for_peer key (.ok stdout)).fst =
        some (String.mk ((splitOnChar '\t' line).getD 0 []))) ∧
    (find_interface_for_peer key .timeout).fst = none ∧
    (find_interface_for_peer key .calledProcessError).fst = none ∧
    (find_interface_for_peer key .fileNotFound).fst = none := by
  refine ⟨?_, ?_, rfl, rfl, rfl⟩
  · intro stdout h
    simp [find_interface_for_peer, find_peer_line_eq_none key _ h]
  · intro stdout pre line post hsp hpre h4 hkey
    simp [find_interface_for_peer, hsp,
      find_peer_line_first key pre line post hpre h4 hkey]

/-- Witness for C9: a dump whose first line is a 5-field interface record
(4 fields on interface lines would not match) and whose second line is the
matching peer record yields the interface name of that record; a dump with no
matching line yields `None`. -/
theorem find_interface_for_peer_spec_witness :
    (find_interface_for_peer "PK" (.ok "wg0\tPRIV\tPUB\t51820\toff\nwg0\tPK\t(none)\tep\tips")).fst =
      some "wg0" ∧
    (find_interface_for_peer "PK" (.ok "wg0\tOTHER\t(none)\tep\tips")).fst = none ∧
    (find_interface_for_peer "PK" .timeout).fst = none := by
  refine ⟨?_, ?_, (find_interface_for_peer_spec "PK").2.2.1⟩
  · have h := (find_interface_for_peer_spec "PK").2.1
      "wg0\tPRIV\tPUB\t51820\toff\nwg0\tPK\t(none)\tep\tips"
      ["wg0\tPRIV\tPUB\t51820\toff".data] "wg0\tPK\t(none)\tep\tips".data []
      (by decide) (by decide) (by decide) (by decide)
    exact h.trans (by decide)
  · exact (find_interface_for_peer_spec "PK").1 "wg0\tOTHER\t(none)\tep\tips"
      (by decide)
